import Mathlib

/-!
Shallow embedding of `src/half_sumo_monitor.py`, a periodic stock monitor:
a Half Sumo JSON-catalog check (new-item detection under a keyword filter),
an Arcteryx HTML variant check (edge-triggered restock detection), a
Supabase-backed state store, and email / Discord notification channels.

Modelling conventions:
- Python dict fields accessed only through `.get(k, default)` become
  `Option` fields (or a plain field when the default makes the absent case
  coincide with a value, as for `tags` where absent behaves as `[]`);
  fields accessed with `d[k]` become required fields.
- Store queries are fallible and appear as `Except String _` parameters;
  store writes are recorded as data (the upsert payloads).
- Python `str.lower()` is `pyLower`, Python `needle in hay` on strings is
  `pyIn`; both operate on the underlying character lists.
- An uncaught Python exception (e.g. `IndexError`) is an `Except.error`.
-/

namespace HalfSumoMonitor

/-- `HALF_SUMO_KEYWORD = "belt"` from the configuration block. -/
def HALF_SUMO_KEYWORD : String := "belt"

/-- `ARCTERYX_PRODUCT_NAME = "Bird Head Toque"`. -/
def ARCTERYX_PRODUCT_NAME : String := "Bird Head Toque"

/-- `ARCTERYX_VARIANT = "Orca"`. -/
def ARCTERYX_VARIANT : String := "Orca"

/-- `ARCTERYX_ID = "bird-head-toque-orca"`. -/
def ARCTERYX_ID : String := "bird-head-toque-orca"

/-- `ARCTERYX_URL`. -/
def ARCTERYX_URL : String := "https://arcteryx.com/us/en/shop/bird-head-toque"

/-- Character-list version of `needle.isPrefixOf hay`. -/
def charsStartWith : List Char → List Char → Bool
  | _, [] => true
  | [], _ :: _ => false
  | c :: cs, d :: ds => c == d && charsStartWith cs ds

/-- Whether `needle` occurs as a contiguous substring of `hay`
(character-list level). -/
def charsHaveSub : List Char → List Char → Bool
  | [], needle => needle.isEmpty
  | c :: cs, needle => charsStartWith (c :: cs) needle || charsHaveSub cs needle

/-- Python `needle in hay` for strings: substring containment. -/
def pyIn (needle hay : String) : Bool :=
  charsHaveSub hay.data needle.data

/-- Python `s.lower()` (ASCII-adequate for the strings this program uses). -/
def pyLower (s : String) : String :=
  ⟨s.data.map Char.toLower⟩

/-- A catalog variant object: `{ price, ... }`.  `price` is `Option` because
the code reads it with `variant.get('price')` / `.get('price', 'N/A')`. -/
structure Variant where
  price : Option String
deriving DecidableEq

/-- A product dict as this program consumes it.  `variants` is `Option`
because the code distinguishes a missing key (`.get('variants', [])` vs
`.get('variants', [{}])`) from a present empty list. -/
structure Product where
  id : String
  title : String
  variants : Option (List Variant)
  handle : String
  tags : List String
  link : Option String
deriving DecidableEq

/-- A row of the `seen_items` table as built by `save_all_belts`:
`{"id": ..., "title": ..., "price": ...}`.  `price` is `Option` because
`variants[0].get('price')` can be Python `None`. -/
structure SeenRecord where
  id : String
  title : String
  price : Option String
deriving DecidableEq

/-- A row of the `arcteryx_tracker` table as built by
`check_arcteryx_stock`. -/
structure TrackerRecord where
  variant_id : String
  product_name : String
  variant_name : String
  in_stock : Bool
  last_checked : String
deriving DecidableEq

/-- `load_existing_ids`: selects `id` from `seen_items` and returns the set
of their string forms; on any store exception it logs and returns the empty
set.  The Python set is modelled by a list up to membership; the fallible
query is the `Except` parameter. -/
def load_existing_ids (queryRes : Except String (List SeenRecord)) : List String :=
  match queryRes with
  | .error _ => []
  | .ok records => records.map (fun r => r.id)

/-- The price `save_all_belts` stores for one item:
`variants[0].get('price') if variants else "0.00"` with
`variants = item.get('variants', [])`. -/
def beltPrice (item : Product) : Option String :=
  match item.variants.getD [] with
  | [] => some "0.00"
  | v :: _ => v.price

/-- The `seen_items` row `save_all_belts` builds for one item. -/
def mkSeenRecord (item : Product) : SeenRecord :=
  { id := item.id, title := item.title, price := beltPrice item }

/-- `save_all_belts`: the upsert payload sent to the `seen_items` table.
Items with `'arcteryx' in item.get('tags', [])` are skipped; everything
else is mapped to its row.  (The surrounding empty-input guard and the
upsert call's try/except do not change the rows that reach the table when
the write succeeds.) -/
def save_all_belts (items : List Product) : List SeenRecord :=
  (items.filter (fun item => !(item.tags.contains "arcteryx"))).map mkSeenRecord

/-- Whether a product passes the caller-side keyword filter in `main`:
`HALF_SUMO_KEYWORD in product.get("title", "").lower()`. -/
def keywordMatches (product : Product) : Bool :=
  pyIn HALF_SUMO_KEYWORD (pyLower product.title)

/-- Accumulated effect of the Half Sumo loop in `main`: the items appended
to `found_items` (the NewItem events) and the concatenation of the
`seen_items` upsert payloads. -/
structure CycleResult where
  found : List Product
  upserts : List SeenRecord
deriving DecidableEq

/-- One iteration of the Half Sumo loop in `main`: on a keyword match the
product is upserted via `save_all_belts([product])`, and appended to
`found_items` only when `str(product.get("id"))` is not in the known-id
set loaded before the loop. -/
def halfSumoStep (existingIds : List String) (acc : CycleResult) (product : Product) :
    CycleResult :=
  let title := pyLower product.title
  let str_id := product.id
  if pyIn HALF_SUMO_KEYWORD title then
    let acc' : CycleResult := { acc with upserts := acc.upserts ++ save_all_belts [product] }
    if !(existingIds.contains str_id) then
      { acc' with found := acc'.found ++ [product] }
    else
      acc'
  else
    acc

/-- The Half Sumo section of `main`, after a successful catalog fetch:
`existing_ids = load_existing_ids()` is captured once, then the loop runs
over the fetched products. -/
def halfSumoCycle (products : List Product) (existingIds : List String) : CycleResult :=
  products.foldl (halfSumoStep existingIds) ⟨[], []⟩

/-- A `<button>` inside the fieldset as `check_arcteryx_stock` reads it:
its text content, its `aria-label` (the code defaults a missing one to
`''`), and its class list (`btn.get('class', [])`). -/
structure Button where
  text : String
  ariaLabel : String
  classes : List String
deriving DecidableEq

/-- Outcome of the Arcteryx page fetch inside the outer try: a transport
failure (raised by `requests.get` / `raise_for_status`), or a parsed page
reduced to `soup.find('fieldset')` — `none` when no fieldset exists. -/
inductive FetchResult where
  | failure (msg : String)
  | success (fieldset : Option (List Button))
deriving DecidableEq

/-- `btn_text = btn.get_text() or btn.get('aria-label', '')`: Python `or`
falls through to the aria-label when the text is empty. -/
def btnText (b : Button) : String :=
  if b.text = "" then b.ariaLabel else b.text

/-- The button loop: the first button whose text contains
`ARCTERYX_VARIANT.lower()` decides, via the absence of the `no--stock`
class, whether the variant is in stock; `none` when no button matches
(`variant_found` stays false). -/
def scanButtons : List Button → Option Bool
  | [] => none
  | btn :: rest =>
    if pyIn (pyLower ARCTERYX_VARIANT) (pyLower (btnText btn)) then
      some (!(btn.classes.contains "no--stock"))
    else
      scanButtons rest

/-- The variant-parsing phase of `check_arcteryx_stock` on a fetched page:
`some b` when a matching button was found with stock flag `b`, `none` when
no fieldset or no matching button (`variant_found = False`). -/
def parseStock (fieldset : Option (List Button)) : Option Bool :=
  match fieldset with
  | none => none
  | some btns => scanButtons btns

/-- `prev_in_stock`: initialised `False`; the inner try reads the
`arcteryx_tracker` row, using the first row's `in_stock` when present; a
query exception is logged and leaves the default. -/
def prevInStock (readRes : Except String (List Bool)) : Bool :=
  match readRes with
  | .error _ => false
  | .ok [] => false
  | .ok (b :: _) => b

/-- The alert item `check_arcteryx_stock` returns on a restock. -/
def arcAlertItem : Product :=
  { id := ARCTERYX_ID
    title := "🔥 RESTOCK: " ++ ARCTERYX_PRODUCT_NAME ++ " (" ++ ARCTERYX_VARIANT ++ ")"
    variants := some [{ price := some "Check Site" }]
    handle := "bird-head-toque"
    tags := ["arcteryx"]
    link := some ARCTERYX_URL }

/-- Result of one `check_arcteryx_stock` call: the row upserted to the
`arcteryx_tracker` table (absent when the fetch failed and the outer
except skipped the DB sync), and the returned alert list. -/
structure ArcResult where
  trackerWrite : Option TrackerRecord
  alert : List Product
deriving DecidableEq

/-- `check_arcteryx_stock`: on fetch failure the outer except returns `[]`
with no DB traffic.  On success, `is_in_stock` comes from the button scan
(staying `False` when nothing matched), the tracker row is upserted
unconditionally, and the alert fires iff `is_in_stock and not
prev_in_stock`.  `now` stands for `datetime.now().isoformat()`. -/
def check_arcteryx_stock (fetch : FetchResult)
    (readRes : Except String (List Bool)) (now : String) : ArcResult :=
  match fetch with
  | .failure _ => { trackerWrite := none, alert := [] }
  | .success fieldset =>
    let is_in_stock := (parseStock fieldset).getD false
    let prev := prevInStock readRes
    let row : TrackerRecord :=
      { variant_id := ARCTERYX_ID
        product_name := ARCTERYX_PRODUCT_NAME
        variant_name := ARCTERYX_VARIANT
        in_stock := is_in_stock
        last_checked := now }
    { trackerWrite := some row
      alert := if is_in_stock && !prev then [arcAlertItem] else [] }

/-- Rows of the persisted tracker state handed to the next cycle's read:
the state is a single row keyed by `variant_id`, so `none` (never written)
becomes no rows and `some b` becomes one row. -/
def stateRows : Option Bool → List Bool
  | none => []
  | some b => [b]

/-- One full successful-fetch cycle of the variant tracker against a
persisted state: runs `check_arcteryx_stock` with a clean store read of
`persisted`, returning the new persisted value and how many Restock
alerts were returned. -/
def trackerCycle (persisted : Option Bool) (fieldset : Option (List Button))
    (now : String) : Option Bool × Nat :=
  let r := check_arcteryx_stock (.success fieldset) (.ok (stateRows persisted)) now
  (match r.trackerWrite with
   | none => persisted
   | some row => some row.in_stock,
   r.alert.length)

/-- Folds `trackerCycle` over a sequence of observed pages, counting the
total number of Restock alerts. -/
def trackerRun (persisted : Option Bool) : List (Option (List Button)) → Option Bool × Nat
  | [] => (persisted, 0)
  | page :: rest =>
    let step := trackerCycle persisted page ""
    let tail := trackerRun step.1 rest
    (tail.1, step.2 + tail.2)

/-- A fieldset whose Orca button carries no `no--stock` class: the page
observation `inStock = true`. -/
def inStockPage : Option (List Button) :=
  some [{ text := "Orca", ariaLabel := "", classes := [] }]

/-- A fieldset whose Orca button carries the `no--stock` class: the page
observation `inStock = false`. -/
def outOfStockPage : Option (List Button) :=
  some [{ text := "Orca", ariaLabel := "", classes := ["no--stock"] }]

/-- The price both notification renderers compute:
`item.get('variants', [{}])[0].get('price', 'N/A')`.  A missing key
defaults to `[{}]`, whose first element yields `'N/A'`; a present empty
list makes the `[0]` subscript raise `IndexError`, modelled as
`Except.error ()`. -/
def renderPrice (item : Product) : Except Unit String :=
  match item.variants with
  | none => .ok "N/A"
  | some [] => .error ()
  | some (v :: _) => .ok (v.price.getD "N/A")

/-- The link both renderers compute: `item['link']` when present, else the
Half Sumo product URL built from `handle`. -/
def itemLink (item : Product) : String :=
  match item.link with
  | some l => l
  | none => "https://halfsumo.com/products/" ++ item.handle

/-- One line of the email body for one item (can raise via the price
subscript). -/
def emailLine (item : Product) : Except Unit String :=
  match renderPrice item with
  | .error err => .error err
  | .ok price =>
    .ok ("- " ++ item.title ++ " ($" ++ price ++ ")\n  Link: " ++ itemLink item ++ "\n\n")

/-- The per-item lines of the email body, in order; an `IndexError` while
rendering any item aborts the whole message build. -/
def emailLines : List Product → Except Unit (List String)
  | [] => .ok []
  | item :: rest =>
    match emailLine item with
    | .error err => .error err
    | .ok line =>
      match emailLines rest with
      | .error err => .error err
      | .ok lines => .ok (line :: lines)

/-- The full email body built by `send_email_notification`. -/
def emailBody (items : List Product) : Except Unit String :=
  match emailLines items with
  | .error err => .error err
  | .ok lines => .ok (String.join ("The following items were found:\n\n" :: lines))

/-- One Discord embed field: `{"name": f"{title} - ${price}", "value":
f"[View Product]({link})", "inline": False}`. -/
structure DiscordField where
  name : String
  value : String
deriving DecidableEq

/-- One Discord embed field for one item (can raise via the price
subscript). -/
def mkDiscordField (item : Product) : Except Unit DiscordField :=
  match renderPrice item with
  | .error err => .error err
  | .ok price =>
    .ok { name := item.title ++ " - $" ++ price
          value := "[View Product](" ++ itemLink item ++ ")" }

/-- The field loop of `send_discord_notification` (before the cap). -/
def discordFields : List Product → Except Unit (List DiscordField)
  | [] => .ok []
  | item :: rest =>
    match mkDiscordField item with
    | .error err => .error err
    | .ok field =>
      match discordFields rest with
      | .error err => .error err
      | .ok fields => .ok (field :: fields)

/-- The webhook payload: a content line and one embed whose `fields` are
the rendered fields truncated to the first 25 (`fields[:25]`). -/
structure DiscordPayload where
  content : String
  embedTitle : String
  fields : List DiscordField
  footerText : String
deriving DecidableEq

/-- `send_discord_notification` up to the HTTP POST: builds the payload,
capping `fields` at 25 entries (`fields[:25]`); rendering can still raise
before the try/except around the POST. -/
def send_discord_notification (items : List Product) : Except Unit DiscordPayload :=
  match discordFields items with
  | .error err => .error err
  | .ok fields =>
    .ok { content := "🚨 **Stock Alert!**"
          embedTitle := "Found " ++ toString items.length ++ " items of interest"
          fields := fields.take 25
          footerText := "Stock Monitor Bot" }

/-- What the email channel did: skipped for missing credentials, delivered,
or delivery failed with the transport/auth error caught by the sender's
try/except (the function still returns normally). -/
inductive EmailOutcome where
  | disabled
  | sent
  | failed (msg : String)
deriving DecidableEq

/-- `send_email_notification`: returns immediately when any credential is
missing; otherwise builds the message (the body loop runs outside the
try/except, so a rendering `IndexError` propagates) and attempts SMTP
delivery, catching any transport or auth failure.  `transport` stands for
the outcome of the SMTP conversation. -/
def send_email_notification (enabled : Bool) (items : List Product)
    (transport : Except String Unit) : Except Unit EmailOutcome :=
  if !enabled then
    .ok .disabled
  else
    match emailBody items with
    | .error err => .error err
    | .ok _body =>
      match transport with
      | .ok _ => .ok .sent
      | .error e => .ok (.failed e)

/-- Outcome of the notification section of `main` (`if found_items: ...`):
nothing to send, an uncaught rendering exception aborting the cycle, or
completion with the email outcome and the Discord payload that was
posted. -/
inductive NotifyResult where
  | noItems
  | crashed
  | completed (email : EmailOutcome) (discord : DiscordPayload)
deriving DecidableEq

/-- The notification section of `main`: when `found_items` is non-empty,
`send_email_notification` runs first and `send_discord_notification` is
then invoked with the same list, regardless of the email delivery
outcome. -/
def notifyStage (items : List Product) (emailEnabled : Bool)
    (emailTransport : Except String Unit) : NotifyResult :=
  if items.isEmpty then
    .noItems
  else
    match send_email_notification emailEnabled items emailTransport with
    | .error _ => .crashed
    | .ok eout =>
      match send_discord_notification items with
      | .error _ => .crashed
      | .ok payload => .completed eout payload

/-- A store write of this cycle, labelled by target table. -/
inductive StoreWrite where
  | seen (r : SeenRecord)
  | tracker (t : TrackerRecord)
deriving DecidableEq

/-- All store writes of one full cycle: the `seen_items` upserts of the
Half Sumo loop followed by the `arcteryx_tracker` upsert (when the fetch
succeeded). -/
def cycleWrites (products : List Product) (existingIds : List String)
    (fetch : FetchResult) (readRes : Except String (List Bool)) (now : String) :
    List StoreWrite :=
  ((halfSumoCycle products existingIds).upserts.map .seen) ++
    (match (check_arcteryx_stock fetch readRes now).trackerWrite with
     | none => []
     | some row => [.tracker row])

/-- A keyword-matching catalog product with a priced variant. -/
def sampleBelt : Product :=
  { id := "100", title := "Red Belt", variants := some [{ price := some "29.99" }]
    handle := "red-belt", tags := [], link := none }

/-- A catalog product whose title does not contain the keyword. -/
def sampleNonBelt : Product :=
  { id := "7", title := "Rash Guard", variants := some [{ price := some "45.00" }]
    handle := "rash-guard", tags := [], link := none }

/-- A keyword-matching catalog product carrying the `arcteryx` tag. -/
def arcTaggedBelt : Product :=
  { id := "9", title := "Arc Belt", variants := some [{ price := some "10.00" }]
    handle := "arc-belt", tags := ["arcteryx"], link := none }

/-- A keyword-matching product with no `variants` key at all. -/
def noVariantsKeyBelt : Product :=
  { id := "101", title := "Blue Belt", variants := none
    handle := "blue-belt", tags := [], link := none }

/-- A keyword-matching product whose `variants` key is present but holds an
empty list. -/
def emptyVariantsBelt : Product :=
  { id := "102", title := "Green Belt", variants := some []
    handle := "green-belt", tags := [], link := none }

/-- The webhook payload produced for the singleton list `[sampleBelt]`. -/
def samplePayload : DiscordPayload :=
  { content := "🚨 **Stock Alert!**"
    embedTitle := "Found 1 items of interest"
    fields := [{ name := "Red Belt - $29.99"
                 value := "[View Product](https://halfsumo.com/products/red-belt)" }]
    footerText := "Stock Monitor Bot" }

end HalfSumoMonitor

namespace HalfSumoMonitor

/-! ## Structural lemmas about the Half Sumo loop -/

lemma save_all_belts_cons (p : Product) (l : List Product) :
    save_all_belts (p :: l) = save_all_belts [p] ++ save_all_belts l := by
  by_cases h : "arcteryx" ∈ p.tags <;>
    simp [save_all_belts, List.filter_cons, h]

/-- The Half Sumo loop, characterised: the NewItem list is the keyword- and
novelty-filtered product list, and the upsert payload is `save_all_belts`
of the keyword-filtered product list. -/
lemma foldl_halfSumoStep (ex : List String) (ps : List Product) :
    ∀ acc : CycleResult,
      ps.foldl (halfSumoStep ex) acc =
        ⟨acc.found ++ ps.filter (fun p => keywordMatches p && !(ex.contains p.id)),
         acc.upserts ++ save_all_belts (ps.filter keywordMatches)⟩ := by
  induction ps with
  | nil => intro acc; simp [save_all_belts]
  | cons p rest ih =>
    intro acc
    rw [List.foldl_cons, ih]
    unfold halfSumoStep
    by_cases hk : pyIn HALF_SUMO_KEYWORD (pyLower p.title) = true
    · have hfk : List.filter keywordMatches (p :: rest) =
          p :: List.filter keywordMatches rest := by
        simp [List.filter_cons, keywordMatches, hk]
      rw [hfk, save_all_belts_cons]
      by_cases hm : p.id ∈ ex
      · simp [hk, hm, List.filter_cons, keywordMatches, List.append_assoc]
        rw [save_all_belts_cons p (List.filter keywordMatches rest)]
        rfl
      · simp [hk, hm, List.filter_cons, keywordMatches, List.append_assoc]
        rw [save_all_belts_cons p (List.filter keywordMatches rest)]
        rfl
    · have hfk : List.filter keywordMatches (p :: rest) =
          List.filter keywordMatches rest := by
        simp [List.filter_cons, keywordMatches, hk]
      rw [hfk]
      simp [hk, List.filter_cons, keywordMatches]

lemma halfSumoCycle_found (ps : List Product) (ex : List String) :
    (halfSumoCycle ps ex).found =
      ps.filter (fun p => keywordMatches p && !(ex.contains p.id)) := by
  unfold halfSumoCycle
  rw [foldl_halfSumoStep]
  simp

lemma halfSumoCycle_upserts (ps : List Product) (ex : List String) :
    (halfSumoCycle ps ex).upserts = save_all_belts (ps.filter keywordMatches) := by
  unfold halfSumoCycle
  rw [foldl_halfSumoStep]
  simp

lemma mem_save_all_belts {r : SeenRecord} {items : List Product} :
    r ∈ save_all_belts items ↔
      ∃ i ∈ items, i.tags.contains "arcteryx" = false ∧ r = mkSeenRecord i := by
  simp only [save_all_belts, List.mem_map, List.mem_filter, Bool.not_eq_true']
  constructor
  · rintro ⟨i, ⟨hi, htag⟩, hr⟩
    exact ⟨i, hi, htag, hr.symm⟩
  · rintro ⟨i, hi, htag, hr⟩
    exact ⟨i, ⟨hi, htag⟩, hr.symm⟩

/-! ## Claim theorems -/

/-- C1 counterexample: `arcTaggedBelt` is a keyword-matching catalog item
(`"belt"` occurs in its lowercased title) that is unknown, so it generates
a NewItem event — yet the cycle upserts nothing for it, because
`save_all_belts` skips items whose tags contain `'arcteryx'`.  This
refutes the claim that every keyword-matching item is upserted. -/
theorem c1_arcteryx_tagged_item_not_upserted :
    keywordMatches arcTaggedBelt = true ∧
    (halfSumoCycle [arcTaggedBelt] []).found = [arcTaggedBelt] ∧
    (halfSumoCycle [arcTaggedBelt] []).upserts = [] := by
  decide

/-- C1 (amended): in a cycle whose catalog fetch succeeds, a
keyword-matching item generates a NewItem event iff its id is absent from
the known-id set loaded before this cycle's upserts, and every
keyword-matching item whose tags do not contain `'arcteryx'` is upserted
to the store regardless of whether it was already known. -/
theorem c1_new_entity_detection (products : List Product) (existingIds : List String)
    (p : Product) (hp : p ∈ products) (hk : keywordMatches p = true) :
    (p ∈ (halfSumoCycle products existingIds).found ↔
      existingIds.contains p.id = false) ∧
    (p.tags.contains "arcteryx" = false →
      mkSeenRecord p ∈ (halfSumoCycle products existingIds).upserts) := by
  constructor
  · rw [halfSumoCycle_found, List.mem_filter]
    simp [hp, hk]
  · intro ht
    rw [halfSumoCycle_upserts]
    exact mem_save_all_belts.mpr ⟨p, List.mem_filter.mpr ⟨hp, hk⟩, ht, rfl⟩

/-- C1 witness: the amended detection theorem evaluated on a one-product
catalog with an empty known-id set. -/
theorem c1_new_entity_detection_witness :
    (sampleBelt ∈ (halfSumoCycle [sampleBelt] []).found ↔
      ([] : List String).contains sampleBelt.id = false) ∧
    (sampleBelt.tags.contains "arcteryx" = false →
      mkSeenRecord sampleBelt ∈ (halfSumoCycle [sampleBelt] []).upserts) :=
  c1_new_entity_detection [sampleBelt] [] sampleBelt (by decide) (by decide)

/-- C6: an item whose lowercased title does not contain the keyword never
appears in the NewItem output, and every record the cycle upserts
originates from some keyword-matching product — so a non-matching item is
never upserted, regardless of the known-id set. -/
theorem c6_keyword_filter (products : List Product) (existingIds : List String)
    (p : Product) (hk : keywordMatches p = false) :
    p ∉ (halfSumoCycle products existingIds).found ∧
    ∀ r ∈ (halfSumoCycle products existingIds).upserts,
      ∃ q ∈ products, keywordMatches q = true ∧ r = mkSeenRecord q := by
  constructor
  · rw [halfSumoCycle_found]
    intro hmem
    rcases List.mem_filter.mp hmem with ⟨-, hcond⟩
    simp [hk] at hcond
  · intro r hr
    rw [halfSumoCycle_upserts] at hr
    rcases mem_save_all_belts.mp hr with ⟨i, hi, -, hri⟩
    rcases List.mem_filter.mp hi with ⟨hip, hik⟩
    exact ⟨i, hip, hik, hri⟩

/-- C6 witness: the keyword-filter theorem evaluated on a catalog holding
one non-matching and one matching product. -/
theorem c6_keyword_filter_witness :
    sampleNonBelt ∉ (halfSumoCycle [sampleNonBelt, sampleBelt] []).found ∧
    ∀ r ∈ (halfSumoCycle [sampleNonBelt, sampleBelt] []).upserts,
      ∃ q ∈ [sampleNonBelt, sampleBelt], keywordMatches q = true ∧
        r = mkSeenRecord q :=
  c6_keyword_filter [sampleNonBelt, sampleBelt] [] sampleNonBelt (by decide)

/-- C7: `save_all_belts` only ever sends rows of non-`arcteryx`-tagged
items to `seen_items`, and over a full cycle every `seen_items` write
comes from such a catalog product while every write the variant checker
makes goes to the `arcteryx_tracker` table (keyed by `ARCTERYX_ID`), so
the two sources are never merged under a colliding id. -/
theorem c7_source_separation :
    (∀ (items : List Product) (r : SeenRecord), r ∈ save_all_belts items →
      ∃ i ∈ items, i.tags.contains "arcteryx" = false ∧ r = mkSeenRecord i) ∧
    (∀ (products : List Product) (existingIds : List String) (fetch : FetchResult)
        (readRes : Except String (List Bool)) (now : String) (w : StoreWrite),
      w ∈ cycleWrites products existingIds fetch readRes now →
        (∀ r : SeenRecord, w = .seen r →
          ∃ q ∈ products, q.tags.contains "arcteryx" = false ∧ r = mkSeenRecord q) ∧
        (∀ t : TrackerRecord, w = .tracker t → t.variant_id = ARCTERYX_ID)) := by
  constructor
  · intro items r hr
    exact mem_save_all_belts.mp hr
  · intro products existingIds fetch readRes now w hw
    rcases List.mem_append.mp hw with hseen | htr
    · rcases List.mem_map.mp hseen with ⟨r, hr, hwr⟩
      subst hwr
      constructor
      · intro r' hr'
        cases hr'
        rw [halfSumoCycle_upserts] at hr
        rcases mem_save_all_belts.mp hr with ⟨q, hq, ht, hrq⟩
        exact ⟨q, (List.mem_filter.mp hq).1, ht, hrq⟩
      · intro t ht
        exact StoreWrite.noConfusion ht
    · cases fetch with
      | failure msg => simp [check_arcteryx_stock] at htr
      | success fieldset =>
        simp only [check_arcteryx_stock] at htr
        rcases List.mem_singleton.mp htr with rfl
        constructor
        · intro r hr
          exact StoreWrite.noConfusion hr
        · intro t ht
          cases ht
          rfl

/-- C7 witness: the `save_all_belts` part of the separation theorem
evaluated on a concrete list containing an `arcteryx`-tagged item. -/
theorem c7_source_separation_witness :
    ∃ i ∈ [sampleBelt, arcTaggedBelt], i.tags.contains "arcteryx" = false ∧
      mkSeenRecord sampleBelt = mkSeenRecord i :=
  c7_source_separation.1 [sampleBelt, arcTaggedBelt] (mkSeenRecord sampleBelt)
    (by decide)

/-- C2: a Restock alert is returned iff the freshly observed `inStock` is
true and the persisted state was false or absent; a first-ever in-stock
observation yields exactly one alert; the observation sequence
`[false, false, true, true, false, true]` yields exactly two alerts. -/
theorem c2_edge_triggered_restock :
    (∀ (persisted : Option Bool) (fieldset : Option (List Button)) (now : String),
      ((check_arcteryx_stock (.success fieldset) (.ok (stateRows persisted)) now).alert ≠ []
        ↔ ((parseStock fieldset).getD false = true ∧ persisted ≠ some true))) ∧
    (trackerRun none [inStockPage]).2 = 1 ∧
    (trackerRun none [outOfStockPage, outOfStockPage, inStockPage, inStockPage,
      outOfStockPage, inStockPage]).2 = 2 := by
  refine ⟨?_, by decide, by decide⟩
  intro persisted fieldset now
  cases persisted with
  | none =>
    cases h : (parseStock fieldset).getD false <;>
      simp [check_arcteryx_stock, prevInStock, stateRows, h]
  | some b =>
    cases b <;> cases h : (parseStock fieldset).getD false <;>
      simp [check_arcteryx_stock, prevInStock, stateRows, h]

/-- C4: when the `seen_items` query fails for any reason,
`load_existing_ids` returns the empty set instead of propagating the
failure, and the Half Sumo cycle then proceeds treating every matching
item as new. -/
theorem c4_store_outage_empty_ids (msg : String) (products : List Product) :
    load_existing_ids (.error msg) = [] ∧
    (halfSumoCycle products (load_existing_ids (.error msg))).found =
      products.filter keywordMatches := by
  refine ⟨rfl, ?_⟩
  rw [halfSumoCycle_found]
  simp [load_existing_ids]

/-- C9: when the `arcteryx_tracker` read fails, the prior state defaults to
out-of-stock, so an in-stock observation returns a Restock alert — even
though the same observation with a successfully read in-stock prior state
returns none (a read failure can duplicate a Restock notification). -/
theorem c9_read_failure_duplicates_restock (e : String)
    (fieldset : Option (List Button)) (now : String)
    (h : (parseStock fieldset).getD false = true) :
    (check_arcteryx_stock (.success fieldset) (.error e) now).alert = [arcAlertItem] ∧
    (check_arcteryx_stock (.success fieldset) (.ok [true]) now).alert = [] := by
  constructor <;> simp [check_arcteryx_stock, prevInStock, h]

/-- C9 witness: the read-failure theorem evaluated on a page whose Orca
button carries no `no--stock` class. -/
theorem c9_read_failure_witness :
    ((parseStock inStockPage).getD false = true) ∧
    ((check_arcteryx_stock (.success inStockPage) (.error "timeout") "t").alert
        = [arcAlertItem] ∧
      (check_arcteryx_stock (.success inStockPage) (.ok [true]) "t").alert = []) :=
  ⟨by decide, c9_read_failure_duplicates_restock "timeout" inStockPage "t" (by decide)⟩

/-- C10: when the page fetch succeeds but no fieldset or no matching button
is found, the cycle persists `in_stock = false`, bit-for-bit the same
tracker row a genuine out-of-stock observation persists; consequently a
later genuine in-stock observation against the persisted false state
returns a fresh Restock alert. -/
theorem c10_structure_not_found_is_oos (fieldset : Option (List Button))
    (readRes : Except String (List Bool)) (now now2 : String)
    (h : parseStock fieldset = none) :
    (check_arcteryx_stock (.success fieldset) readRes now).trackerWrite =
      some { variant_id := ARCTERYX_ID, product_name := ARCTERYX_PRODUCT_NAME
             variant_name := ARCTERYX_VARIANT, in_stock := false, last_checked := now } ∧
    (check_arcteryx_stock (.success fieldset) readRes now).trackerWrite =
      (check_arcteryx_stock (.success outOfStockPage) readRes now).trackerWrite ∧
    (check_arcteryx_stock (.success inStockPage) (.ok [false]) now2).alert =
      [arcAlertItem] := by
  have ho : parseStock outOfStockPage = some false := by decide
  have hi : parseStock inStockPage = some true := by decide
  refine ⟨?_, ?_, ?_⟩ <;> simp [check_arcteryx_stock, prevInStock, h, ho, hi]

/-- C10 witness: the layout-drift theorem evaluated on a page with no
fieldset at all. -/
theorem c10_structure_not_found_witness :
    (parseStock (none : Option (List Button)) = none) ∧
    ((check_arcteryx_stock (.success none) (.ok []) "t1").trackerWrite =
      some { variant_id := ARCTERYX_ID, product_name := ARCTERYX_PRODUCT_NAME
             variant_name := ARCTERYX_VARIANT, in_stock := false, last_checked := "t1" } ∧
    (check_arcteryx_stock (.success none) (.ok []) "t1").trackerWrite =
      (check_arcteryx_stock (.success outOfStockPage) (.ok []) "t1").trackerWrite ∧
    (check_arcteryx_stock (.success inStockPage) (.ok [false]) "t2").alert =
      [arcAlertItem]) :=
  ⟨rfl, c10_structure_not_found_is_oos none (.ok []) "t1" "t2" rfl⟩

/-! ## Render-success lemmas for the notification channels -/

lemma renderPrice_ok (item : Product) (h : item.variants ≠ some []) :
    ∃ s, renderPrice item = .ok s := by
  match hv : item.variants with
  | none => exact ⟨"N/A", by simp [renderPrice, hv]⟩
  | some [] => exact absurd hv h
  | some (v :: t) => exact ⟨v.price.getD "N/A", by simp [renderPrice, hv]⟩

lemma emailLine_ok (item : Product) (h : item.variants ≠ some []) :
    ∃ line, emailLine item = .ok line := by
  rcases renderPrice_ok item h with ⟨s, hs⟩
  exact ⟨"- " ++ item.title ++ " ($" ++ s ++ ")\n  Link: " ++ itemLink item ++ "\n\n",
    by simp [emailLine, hs]⟩

lemma mkDiscordField_ok (item : Product) (h : item.variants ≠ some []) :
    ∃ f, mkDiscordField item = .ok f := by
  rcases renderPrice_ok item h with ⟨s, hs⟩
  exact ⟨{ name := item.title ++ " - $" ++ s
           value := "[View Product](" ++ itemLink item ++ ")" },
    by simp [mkDiscordField, hs]⟩

lemma emailLines_cons (a : Product) (t : List Product) :
    emailLines (a :: t) =
      match emailLine a with
      | .error err => .error err
      | .ok line =>
        match emailLines t with
        | .error err => .error err
        | .ok lines => .ok (line :: lines) := rfl

lemma discordFields_cons (a : Product) (t : List Product) :
    discordFields (a :: t) =
      match mkDiscordField a with
      | .error err => .error err
      | .ok field =>
        match discordFields t with
        | .error err => .error err
        | .ok fields => .ok (field :: fields) := rfl

lemma emailLines_ok (items : List Product)
    (h : ∀ i ∈ items, i.variants ≠ some []) :
    ∃ ls, emailLines items = .ok ls := by
  induction items with
  | nil => exact ⟨[], rfl⟩
  | cons a t ih =>
    rcases emailLine_ok a (h a (List.mem_cons_self a t)) with ⟨line, hline⟩
    rcases ih (fun x hx => h x (List.mem_cons_of_mem a hx)) with ⟨ls, hls⟩
    exact ⟨line :: ls, by rw [emailLines_cons, hline, hls]⟩

lemma discordFields_ok (items : List Product)
    (h : ∀ i ∈ items, i.variants ≠ some []) :
    ∃ fs, discordFields items = .ok fs := by
  induction items with
  | nil => exact ⟨[], rfl⟩
  | cons a t ih =>
    rcases mkDiscordField_ok a (h a (List.mem_cons_self a t)) with ⟨f, hf⟩
    rcases ih (fun x hx => h x (List.mem_cons_of_mem a hx)) with ⟨fs, hfs⟩
    exact ⟨f :: fs, by rw [discordFields_cons, hf, hfs]⟩

/-- C5: for a non-empty event list that renders cleanly, a failing email
transport is caught inside `send_email_notification` (which returns
normally, reporting the caught failure), the Discord channel is still
invoked with the same events and builds its payload, and the notification
stage completes rather than crashing. -/
theorem c5_channel_isolation (items : List Product) (e : String)
    (hne : items ≠ []) (hv : ∀ i ∈ items, i.variants ≠ some []) :
    ∃ payload, send_discord_notification items = .ok payload ∧
      send_email_notification true items (.error e) = .ok (.failed e) ∧
      notifyStage items true (.error e) = .completed (.failed e) payload := by
  rcases emailLines_ok items hv with ⟨ls, hls⟩
  rcases discordFields_ok items hv with ⟨fs, hfs⟩
  have hb : emailBody items =
      .ok (String.join ("The following items were found:\n\n" :: ls)) := by
    unfold emailBody
    rw [hls]
  have he : send_email_notification true items (.error e) = .ok (.failed e) := by
    simp [send_email_notification, hb]
  have hd : send_discord_notification items =
      .ok { content := "🚨 **Stock Alert!**"
            embedTitle := "Found " ++ toString items.length ++ " items of interest"
            fields := fs.take 25
            footerText := "Stock Monitor Bot" } := by
    unfold send_discord_notification
    rw [hfs]
  have hie : items.isEmpty = false := by
    cases items with
    | nil => exact absurd rfl hne
    | cons a t => rfl
  refine ⟨_, hd, he, ?_⟩
  simp [notifyStage, hie, he, hd]

/-- C5 witness: the isolation theorem evaluated on one rendered item with a
failing SMTP transport. -/
theorem c5_channel_isolation_witness :
    ([sampleBelt] ≠ [] ∧ ∀ i ∈ [sampleBelt], i.variants ≠ some []) ∧
    (∃ payload, send_discord_notification [sampleBelt] = .ok payload ∧
      send_email_notification true [sampleBelt] (.error "auth") = .ok (.failed "auth") ∧
      notifyStage [sampleBelt] true (.error "auth") =
        .completed (.failed "auth") payload) :=
  ⟨⟨by decide, by decide⟩,
    c5_channel_isolation [sampleBelt] "auth" (by decide) (by decide)⟩

/-- C3 counterexample: with 26 change events the email channel renders 26
list entries into the delivered message — more than 25 — so the 25-entry
cap does not hold on every enabled channel. -/
theorem c3_email_uncapped :
    Except.map List.length (emailLines (List.replicate 26 sampleBelt)) = .ok 26 ∧
    send_email_notification true (List.replicate 26 sampleBelt) (.ok ()) = .ok .sent ∧
    ¬(26 ≤ 25) := by
  refine ⟨rfl, rfl, by norm_num⟩

/-- C3 (amended): the 25-entry cap holds for the Discord channel — every
successfully built webhook payload carries at most 25 embed fields, the
excess silently truncated — while the email body lists every event without
a cap. -/
theorem c3_discord_field_cap (items : List Product) (payload : DiscordPayload)
    (h : send_discord_notification items = .ok payload) :
    payload.fields.length ≤ 25 := by
  unfold send_discord_notification at h
  cases hf : discordFields items with
  | error err =>
    rw [hf] at h
    simp at h
  | ok fields =>
    rw [hf] at h
    simp only [Except.ok.injEq] at h
    subst h
    simp only [List.length_take]
    exact min_le_left 25 fields.length

/-- C3 witness: the cap theorem evaluated on the concrete payload built
for a single item. -/
theorem c3_discord_field_cap_witness :
    send_discord_notification [sampleBelt] = .ok samplePayload ∧
    samplePayload.fields.length ≤ 25 :=
  ⟨rfl, c3_discord_field_cap [sampleBelt] samplePayload rfl⟩

/-- C8 counterexample: an item whose `variants` key holds an empty list is
upserted with price `"0.00"`, but the renderers do not fall back to
`'N/A'` for it — the `[0]` subscript raises `IndexError` instead. -/
theorem c8_empty_variants_render_error :
    beltPrice emptyVariantsBelt = some "0.00" ∧
    renderPrice emptyVariantsBelt = .error () ∧
    emailLine emptyVariantsBelt = .error () ∧
    mkDiscordField emptyVariantsBelt = .error () :=
  ⟨by decide, rfl, rfl, rfl⟩

/-- C8 (amended): for empty-or-missing `variants` the upserted record gets
price `"0.00"`; the renderers fall back to `'N/A'` only when the
`variants` key is missing, and raise `IndexError` when it is present but
empty. -/
theorem c8_price_defaults (item : Product)
    (h : item.variants = none ∨ item.variants = some []) :
    beltPrice item = some "0.00" ∧
    renderPrice item = (if item.variants = none then .ok "N/A" else .error ()) := by
  rcases h with h | h <;> simp [beltPrice, renderPrice, h]

/-- C8 witness: the amended price-default theorem evaluated on a product
with no `variants` key. -/
theorem c8_price_defaults_witness :
    (noVariantsKeyBelt.variants = none ∨ noVariantsKeyBelt.variants = some []) ∧
    (beltPrice noVariantsKeyBelt = some "0.00" ∧
      renderPrice noVariantsKeyBelt =
        (if noVariantsKeyBelt.variants = none then .ok "N/A" else .error ())) :=
  ⟨Or.inl rfl, c8_price_defaults noVariantsKeyBelt (Or.inl rfl)⟩

end HalfSumoMonitor
